import Mathlib

/-!
Verification of the factory-simulator core against its specification.

Quantities are modelled as exact rationals; random draws of the simulator are
made explicit oracle parameters (a standard normal draw z, with deterministic
mode corresponding to z = 0, matching Base.randomize = False where
norm(mu, sigma) returns mu).
-/

namespace FactorySim

/-- Value held in the `material` field of a MaterialBatch.  In the source this
field is annotated `material: Material`; `MaterialBatch.from_existing`
(material.py line 109) passes `batch.env` (the simpy Environment) instead of
`batch.material`, which we represent with the `envRef` constructor. -/
inductive MatRef
| mat (uid : String)
| envRef
deriving DecidableEq

/-- Embedding of MaterialBatch (material.py lines 31-103).  The quality and
consumption_factor draws of `__init__` are resolved values here; `created_ts`
is an integer timestamp. -/
structure MaterialBatch where
  material : MatRef
  quantity : ℚ
  quality : ℚ
  consumption_factor : ℚ
  batch_id : String
  created_ts : ℤ
  name : String
deriving DecidableEq

/-- Embedding of MaterialBatch.from_existing (material.py lines 105-117).
The constructor is called with `material=batch.env` (not `batch.material`),
`quantity=new_quantity or batch.quantity` (Python truthiness: an explicit
`new_quantity` of 0 falls back to `batch.quantity`), and `quality` /
`consumption_factor` are overwritten with the originals after construction. -/
def MaterialBatch.from_existing (batch : MaterialBatch) (new_quantity : Option ℚ) :
    MaterialBatch :=
  { material := MatRef.envRef
    quantity :=
      match new_quantity with
      | none => batch.quantity
      | some q => if q = 0 then batch.quantity else q
    quality := batch.quality
    consumption_factor := batch.consumption_factor
    batch_id := batch.batch_id
    created_ts := batch.created_ts
    name := batch.name }

/-- Sum of batch quantities (the `level` of a material container). -/
def batchSum (bs : List MaterialBatch) : ℚ :=
  (bs.map MaterialBatch.quantity).sum

@[simp]
theorem batchSum_nil : batchSum [] = 0 := rfl

@[simp]
theorem batchSum_cons (b : MaterialBatch) (bs : List MaterialBatch) :
    batchSum (b :: bs) = b.quantity + batchSum bs := by
  simp [batchSum]

@[simp]
theorem batchSum_append (l1 l2 : List MaterialBatch) :
    batchSum (l1 ++ l2) = batchSum l1 + batchSum l2 := by
  simp [batchSum]

@[simp]
theorem batchSum_reverse (l : List MaterialBatch) :
    batchSum l.reverse = batchSum l := by
  simp [batchSum, List.sum_reverse]

/-- Embedding of MaterialContainer (containers.py lines 103-157): an ordered
list of batches; `put` inserts at the head, `get` consumes from the tail, so
the tail is the oldest batch. -/
structure MaterialContainer where
  material : MatRef
  capacity : ℚ
  batches : List MaterialBatch
deriving DecidableEq

/-- Level of a material container: sum of its batch quantities
(containers.py lines 163-165). -/
def MaterialContainer.level (c : MaterialContainer) : ℚ :=
  batchSum c.batches

/-- The while-loop of MaterialContainer.get (containers.py lines 237-264),
stated on the tail-first (reversed) batch list: one batch is taken at a time
from the front of the reversed list; a batch that would overshoot is split via
`MaterialBatch.from_existing` after its quantity has been reduced in place.
The `fetch_quantity > quantity` ValueError branch of the source is unreachable
(the fetched total only ever reaches `quantity` exactly, at which point the
loop breaks) and so has no counterpart here. -/
def getLoop (quantity : ℚ) :
    List MaterialBatch → ℚ → List MaterialBatch →
      List MaterialBatch × List MaterialBatch
  | [], _, fetched => ([], fetched)
  | b :: rest, fetch_quantity, fetched =>
    let missing_quantity := quantity - fetch_quantity
    let new_quantity := fetch_quantity + b.quantity
    if new_quantity > quantity then
      let kept : MaterialBatch := { b with quantity := b.quantity - missing_quantity }
      let fetch_batch := MaterialBatch.from_existing kept (some missing_quantity)
      (kept :: rest, fetched ++ [fetch_batch])
    else
      let fetched2 := fetched ++ [b]
      if new_quantity = quantity then (rest, fetched2)
      else getLoop quantity rest new_quantity fetched2

/-- Embedding of MaterialContainer.get (containers.py lines 230-270).  Returns
the container after the call together with the fetched batches, or the
ValueError raised when more than the level is requested. -/
def MaterialContainer.get (c : MaterialContainer) (quantity : ℚ) :
    Except String (MaterialContainer × List MaterialBatch) :=
  if quantity > c.level then .error "ValueError: quantity > level"
  else
    let res := getLoop quantity c.batches.reverse 0 []
    .ok ({ c with batches := res.1.reverse }, res.2)

theorem getLoop_cons_split {quantity fq : ℚ} {b : MaterialBatch}
    {rest acc : List MaterialBatch} (h : fq + b.quantity > quantity) :
    getLoop quantity (b :: rest) fq acc =
      ({ b with quantity := b.quantity - (quantity - fq) } :: rest,
       acc ++ [MaterialBatch.from_existing
         { b with quantity := b.quantity - (quantity - fq) } (some (quantity - fq))]) := by
  simp only [getLoop]
  rw [if_pos h]

theorem getLoop_cons_exact {quantity fq : ℚ} {b : MaterialBatch}
    {rest acc : List MaterialBatch} (h1 : ¬ fq + b.quantity > quantity)
    (h2 : fq + b.quantity = quantity) :
    getLoop quantity (b :: rest) fq acc = (rest, acc ++ [b]) := by
  simp only [getLoop]
  rw [if_neg h1, if_pos h2]

theorem getLoop_cons_continue {quantity fq : ℚ} {b : MaterialBatch}
    {rest acc : List MaterialBatch} (h1 : ¬ fq + b.quantity > quantity)
    (h2 : ¬ fq + b.quantity = quantity) :
    getLoop quantity (b :: rest) fq acc =
      getLoop quantity rest (fq + b.quantity) (acc ++ [b]) := by
  simp only [getLoop]
  rw [if_neg h1, if_neg h2]

/-- Structure of one completed get-loop run: starting from an accumulated
fetch of `fq < quantity` and enough material ahead, the loop either consumes a
whole prefix of the (tail-first) batch list exactly, or consumes a prefix and
splits the next batch, keeping the reduced original in place. -/
theorem getLoop_spec (quantity : ℚ) :
    ∀ (bs : List MaterialBatch) (fq : ℚ) (acc : List MaterialBatch),
      fq < quantity → quantity - fq ≤ batchSum bs →
      ∃ k, k ≤ bs.length ∧
        (((getLoop quantity bs fq acc).2 = acc ++ bs.take k ∧
          (getLoop quantity bs fq acc).1 = bs.drop k ∧
          batchSum (bs.take k) = quantity - fq) ∨
         (∃ b rest m, bs.drop k = b :: rest ∧ 0 < m ∧ m < b.quantity ∧
           batchSum (bs.take k) + m = quantity - fq ∧
           (getLoop quantity bs fq acc).2 =
             acc ++ bs.take k ++
               [MaterialBatch.from_existing
                 { b with quantity := b.quantity - m } (some m)] ∧
           (getLoop quantity bs fq acc).1 =
             { b with quantity := b.quantity - m } :: rest)) := by
  intro bs
  induction bs with
  | nil =>
    intro fq acc hlt hle
    simp only [batchSum_nil] at hle
    exact absurd hle (by linarith)
  | cons b rest ih =>
    intro fq acc hlt hle
    by_cases hgt : fq + b.quantity > quantity
    · refine ⟨0, by simp, Or.inr ⟨b, rest, quantity - fq, ?_, ?_, ?_, ?_, ?_, ?_⟩⟩
      · simp
      · linarith
      · linarith
      · simp
      · rw [getLoop_cons_split hgt]; simp
      · rw [getLoop_cons_split hgt]
    · by_cases heq : fq + b.quantity = quantity
      · refine ⟨1, by simp, Or.inl ⟨?_, ?_, ?_⟩⟩
        · rw [getLoop_cons_exact hgt heq]; simp
        · rw [getLoop_cons_exact hgt heq]; simp
        · simp only [List.take_succ_cons, List.take_zero, batchSum_cons, batchSum_nil]
          linarith
      · have hlt2 : fq + b.quantity < quantity := lt_of_le_of_ne (not_lt.mp hgt) heq
        have hle2 : quantity - (fq + b.quantity) ≤ batchSum rest := by
          simp only [batchSum_cons] at hle
          linarith
        obtain ⟨k, hk, hcase⟩ := ih (fq + b.quantity) (acc ++ [b]) hlt2 hle2
        refine ⟨k + 1, by simpa using hk, ?_⟩
        rw [getLoop_cons_continue hgt heq]
        rcases hcase with ⟨hf, hc, hs⟩ | ⟨b2, rest2, m, hdrop, hm0, hmq, hs, hf, hc⟩
        · refine Or.inl ⟨?_, ?_, ?_⟩
          · rw [hf]; simp
          · rw [hc]; simp
          · simp only [List.take_succ_cons, batchSum_cons]
            linarith
        · refine Or.inr ⟨b2, rest2, m, ?_, hm0, hmq, ?_, ?_, ?_⟩
          · simpa using hdrop
          · simp only [List.take_succ_cons, batchSum_cons]
            linarith
          · rw [hf]; simp
          · rw [hc]

@[simp]
theorem from_existing_batch_id (b : MaterialBatch) (nq : Option ℚ) :
    (MaterialBatch.from_existing b nq).batch_id = b.batch_id := rfl

@[simp]
theorem from_existing_quality (b : MaterialBatch) (nq : Option ℚ) :
    (MaterialBatch.from_existing b nq).quality = b.quality := rfl

@[simp]
theorem from_existing_consumption_factor (b : MaterialBatch) (nq : Option ℚ) :
    (MaterialBatch.from_existing b nq).consumption_factor = b.consumption_factor := rfl

@[simp]
theorem from_existing_material (b : MaterialBatch) (nq : Option ℚ) :
    (MaterialBatch.from_existing b nq).material = MatRef.envRef := rfl

theorem from_existing_quantity_of_ne {b : MaterialBatch} {m : ℚ} (h : m ≠ 0) :
    (MaterialBatch.from_existing b (some m)).quantity = m := by
  simp [MaterialBatch.from_existing, h]

/-- Haupt characterization of MaterialContainer.get for a positive request not
exceeding the level: the call succeeds, the fetched quantities sum to the
request, total quantity is conserved, and the fetched batches are a tail-first
prefix of the container, the last one possibly split off the next batch which
stays behind with the missing quantity removed. -/
theorem MaterialContainer.get_spec (c : MaterialContainer) (q : ℚ)
    (hpos : 0 < q) (hle : q ≤ c.level) :
    ∃ c2 fetched, c.get q = .ok (c2, fetched) ∧
      batchSum fetched = q ∧
      c2.level + batchSum fetched = c.level ∧
      (∃ k, k ≤ c.batches.reverse.length ∧
        ((fetched = c.batches.reverse.take k ∧
          c2.batches.reverse = c.batches.reverse.drop k) ∨
         (∃ b rest m, c.batches.reverse.drop k = b :: rest ∧ 0 < m ∧ m < b.quantity ∧
           fetched = c.batches.reverse.take k ++
             [MaterialBatch.from_existing { b with quantity := b.quantity - m } (some m)] ∧
           c2.batches.reverse = { b with quantity := b.quantity - m } :: rest))) := by
  have hng : ¬ q > c.level := not_lt.mpr hle
  have hrev : batchSum c.batches.reverse = c.level := by
    simp [MaterialContainer.level]
  obtain ⟨k, hk, hcase⟩ :=
    getLoop_spec q c.batches.reverse 0 [] hpos (by rw [hrev]; linarith)
  set res := getLoop q c.batches.reverse 0 [] with hres
  refine ⟨{ c with batches := res.1.reverse }, res.2, ?_, ?_, ?_, ?_⟩
  · simp [MaterialContainer.get, hng]
  · rcases hcase with ⟨hf, _, hs⟩ | ⟨b, rest, m, hdrop, hm0, _, hs, hf, _⟩
    · rw [hf, List.nil_append, hs, sub_zero]
    · rw [hf, List.nil_append, batchSum_append]
      have : batchSum [MaterialBatch.from_existing
          { b with quantity := b.quantity - m } (some m)] = m := by
        simp [from_existing_quantity_of_ne (ne_of_gt hm0)]
      rw [this]
      linarith
  · have hsplit : batchSum (c.batches.reverse.take k) +
        batchSum (c.batches.reverse.drop k) = c.level := by
      rw [← batchSum_append, List.take_append_drop, hrev]
    rcases hcase with ⟨hf, hc, hs⟩ | ⟨b, rest, m, hdrop, hm0, _, hs, hf, hc⟩
    · have hlev : MaterialContainer.level { c with batches := res.1.reverse } =
          batchSum (c.batches.reverse.drop k) := by
        simp [MaterialContainer.level, hc]
      rw [hlev, hf, List.nil_append]
      rw [sub_zero] at hs
      linarith
    · have hlev : MaterialContainer.level { c with batches := res.1.reverse } =
          (b.quantity - m) + batchSum rest := by
        simp only [MaterialContainer.level, hc, List.reverse_cons, batchSum_append, batchSum_cons, batchSum_reverse, batchSum_nil]; ring
      have hdsum : batchSum (c.batches.reverse.drop k) = b.quantity + batchSum rest := by
        rw [hdrop, batchSum_cons]
      have hfsum : batchSum res.2 = q := by
        rw [hf, List.nil_append, batchSum_append]
        have : batchSum [MaterialBatch.from_existing
            { b with quantity := b.quantity - m } (some m)] = m := by
          simp [from_existing_quantity_of_ne (ne_of_gt hm0)]
        rw [this]
        linarith
      rw [hlev, hfsum]
      linarith
  · refine ⟨k, hk, ?_⟩
    rcases hcase with ⟨hf, hc, _⟩ | ⟨b, rest, m, hdrop, hm0, hmq, hs, hf, hc⟩
    · exact Or.inl ⟨by rw [hf, List.nil_append], by simp [hc]⟩
    · exact Or.inr ⟨b, rest, m, hdrop, hm0, hmq,
        by rw [hf, List.nil_append], by simp [hc]⟩

/-- Conclusion of claim C1 for a container and a requested quantity: the get
succeeds; fetched quantities sum to the request; quantity is conserved; the
fetched batches form a tail-first (FIFO) prefix of the container with at most
the last one split, and a split batch carries the batch_id, quality and
consumption_factor of the original while the original keeps its quantity minus
the missing quantity. -/
def GetConservation (c : MaterialContainer) (q : ℚ) : Prop :=
  ∃ c2 fetched, c.get q = .ok (c2, fetched) ∧
    batchSum fetched = q ∧
    c2.level + batchSum fetched = c.level ∧
    (∃ k, k ≤ c.batches.reverse.length ∧
      ((fetched = c.batches.reverse.take k ∧
        c2.batches.reverse = c.batches.reverse.drop k) ∨
       (∃ b rest m, c.batches.reverse.drop k = b :: rest ∧ 0 < m ∧ m < b.quantity ∧
         fetched = c.batches.reverse.take k ++
           [MaterialBatch.from_existing { b with quantity := b.quantity - m } (some m)] ∧
         (MaterialBatch.from_existing
           { b with quantity := b.quantity - m } (some m)).batch_id = b.batch_id ∧
         (MaterialBatch.from_existing
           { b with quantity := b.quantity - m } (some m)).quality = b.quality ∧
         (MaterialBatch.from_existing
           { b with quantity := b.quantity - m } (some m)).consumption_factor =
             b.consumption_factor ∧
         (MaterialBatch.from_existing
           { b with quantity := b.quantity - m } (some m)).quantity = m ∧
         c2.batches.reverse = { b with quantity := b.quantity - m } :: rest)))

/-- C1 (amended: the requested quantity must be positive).  For every
MaterialContainer.get(q) with 0 < q ≤ level, the fetched quantities sum to q,
quantity is conserved, batches are taken in FIFO (tail-first) order and a
split produces a new batch with the same batch_id, quality and
consumption_factor while the original keeps quantity minus the missing
quantity.  At q = 0 the claim fails, see the counterexample. -/
theorem materialContainer_get_correct (c : MaterialContainer) (q : ℚ)
    (hpos : 0 < q) (hle : q ≤ c.level) : GetConservation c q := by
  obtain ⟨c2, fetched, hget, hsum, hcons, k, hk, hcase⟩ :=
    MaterialContainer.get_spec c q hpos hle
  refine ⟨c2, fetched, hget, hsum, hcons, k, hk, ?_⟩
  rcases hcase with h | ⟨b, rest, m, hdrop, hm0, hmq, hf, hc⟩
  · exact Or.inl h
  · exact Or.inr ⟨b, rest, m, hdrop, hm0, hmq, hf, rfl, rfl, rfl,
      from_existing_quantity_of_ne (ne_of_gt hm0), hc⟩

/-- Material used in the concrete containers below. -/
def wood : MatRef := MatRef.mat "wood"

/-- A concrete container holding batches of quantity 3 (newest, head) and 2
(oldest, tail). -/
def sampleContainer : MaterialContainer :=
  ⟨wood, 100,
   [⟨wood, 3, 1, 1, "B2", 0, "material-batch"⟩,
    ⟨wood, 2, 1, 1, "B1", 0, "material-batch"⟩]⟩

/-- Witness for C1 at the concrete container and request 4. -/
theorem materialContainer_get_correct_witness :
    (0 : ℚ) < 4 ∧ (4 : ℚ) ≤ sampleContainer.level ∧ GetConservation sampleContainer 4 :=
  ⟨by norm_num,
   by norm_num [sampleContainer, MaterialContainer.level, batchSum],
   materialContainer_get_correct sampleContainer 4 (by norm_num)
     (by norm_num [sampleContainer, MaterialContainer.level, batchSum])⟩

/-- A concrete container holding a single batch of quantity 5. -/
def zeroGetContainer : MaterialContainer :=
  ⟨wood, 100, [⟨wood, 5, 1, 1, "B0", 0, "material-batch"⟩]⟩

/-- C1 counterexample: get(0) satisfies 0 ≤ level, yet the returned batches
sum to 5, not 0 (the split path runs with missing_quantity = 0 and
from_existing falls back to the full batch quantity), so neither the sum
equation nor conservation holds at q = 0. -/
theorem materialContainer_get_zero_counterexample :
    (0 : ℚ) ≤ zeroGetContainer.level ∧
    (∃ c2 fetched, zeroGetContainer.get 0 = .ok (c2, fetched) ∧
      batchSum fetched = 5 ∧ c2.level = 5 ∧
      c2.level + batchSum fetched ≠ zeroGetContainer.level) := by
  refine ⟨by norm_num [zeroGetContainer, MaterialContainer.level, batchSum], ?_⟩
  refine ⟨⟨wood, 100, [⟨wood, 5, 1, 1, "B0", 0, "material-batch"⟩]⟩,
    [⟨MatRef.envRef, 5, 1, 1, "B0", 0, "material-batch"⟩], ?_, ?_, ?_, ?_⟩
  · show (if (0:ℚ) > zeroGetContainer.level then _ else _) = _
    rw [if_neg (by norm_num [zeroGetContainer, MaterialContainer.level, batchSum])]
    have hrev : zeroGetContainer.batches.reverse =
        [⟨wood, 5, 1, 1, "B0", 0, "material-batch"⟩] := rfl
    have hloop := @getLoop_cons_split 0 0
      ⟨wood, 5, 1, 1, "B0", 0, "material-batch"⟩ [] [] (by norm_num)
    simp only [hrev, hloop]
    norm_num [MaterialBatch.from_existing, zeroGetContainer]
  · norm_num [batchSum]
  · norm_num [MaterialContainer.level, batchSum]
  · norm_num [zeroGetContainer, MaterialContainer.level, batchSum]

/-- A concrete container for the C10 split. -/
def splitContainer : MaterialContainer :=
  ⟨wood, 100, [⟨wood, 5, 1, 1, "B0", 0, "material-batch"⟩]⟩

/-- C10 (code bug): MaterialBatch.from_existing assigns `material=batch.env`
(material.py line 109), so every split batch carries the environment reference
in its material field; in particular the batch returned by a splitting get does
not carry the container's material. -/
theorem from_existing_material_code_bug :
    (∀ b nq, (MaterialBatch.from_existing b nq).material = MatRef.envRef) ∧
    (∃ c2 fetched, splitContainer.get 2 = .ok (c2, fetched) ∧
      ∃ fb, fb ∈ fetched ∧ fb.material ≠ splitContainer.material) := by
  refine ⟨fun b nq => rfl, ?_⟩
  refine ⟨⟨wood, 100, [⟨wood, 3, 1, 1, "B0", 0, "material-batch"⟩]⟩,
    [⟨MatRef.envRef, 2, 1, 1, "B0", 0, "material-batch"⟩], ?_, ?_⟩
  · show (if (2:ℚ) > splitContainer.level then _ else _) = _
    rw [if_neg (by norm_num [splitContainer, MaterialContainer.level, batchSum])]
    have hrev : splitContainer.batches.reverse =
        [⟨wood, 5, 1, 1, "B0", 0, "material-batch"⟩] := rfl
    have hloop := @getLoop_cons_split 2 0
      ⟨wood, 5, 1, 1, "B0", 0, "material-batch"⟩ [] [] (by norm_num)
    simp only [hrev, hloop]
    norm_num [MaterialBatch.from_existing, splitContainer]
  · exact ⟨_, List.mem_singleton.mpr rfl, by decide⟩

/-- Cause carried by a simpy Interrupt delivered to Program.run: a BaseCause
with its force flag, a BaseIssue, or anything else (re-raised as UnknownCause,
program.py line 264). -/
inductive InterruptCause
| baseCause (force : Bool)
| baseIssue
| otherCause
deriving DecidableEq

/-- Observable outcome of one Program.run pass over the timed phase and its
epilogue. -/
structure RunPhaseResult where
  end_time : ℚ
  time_spent : ℚ
  consume_ran : Bool
  containers_unlocked : Bool
  program_stopped : Bool
deriving DecidableEq

/-- Embedding of the timed phase and epilogue of Program.run (program.py lines
244-299) in deterministic mode (randomize = False: norm(mu, sigma) = mu, so
wnorm(low) waits max(low, 0) time units).  `interrupt = some (t, cause)`
models a simpy Interrupt delivered at time t while the run waits on
wnorm(duration).  After the try/except the code always calls _consume_inputs
(which unlocks all locked containers) with time_spent = now - start_time, puts
the product batches, and emits program_stopped; an unknown cause instead
raises UnknownCause before any of that. -/
def Program.runTimedPhase (start_time duration : ℚ)
    (interrupt : Option (ℚ × InterruptCause)) : Except String RunPhaseResult :=
  match interrupt with
  | none =>
    let end_time := start_time + max duration 0
    .ok ⟨end_time, end_time - start_time, true, true, true⟩
  | some (t, cause) =>
    match cause with
    | .baseCause false =>
      let time_left := start_time + duration - t
      let end_time := t + max time_left 0
      .ok ⟨end_time, end_time - start_time, true, true, true⟩
    | .baseCause true =>
      .ok ⟨t, t - start_time, true, true, true⟩
    | .baseIssue =>
      .ok ⟨t, t - start_time, true, true, true⟩
    | .otherCause => .error "UnknownCause"

/-- Embedding of Base.cnorm (base.py lines 304-308), with the standard normal
draw z made explicit: pos = (z - (-1.96)) / (1.96 * 2), result =
pos * (high - low) + low.  Deterministic mode corresponds to z = 0. -/
def cnorm (z low high : ℚ) : ℚ :=
  (z - (-196 / 100)) / (196 / 100 * 2) * (high - low) + low

/-- Actual quantity consumed for one BOM input in Program._consume_inputs
(program.py lines 154-159): base = time_spent * consumption rate, actual =
cnorm(0.99 * base, 1.01 * base) with draw z. -/
def consumeQuantity (z time_spent rate : ℚ) : ℚ :=
  cnorm z (99 / 100 * (time_spent * rate)) (101 / 100 * (time_spent * rate))

theorem cnorm_zero (low high : ℚ) : cnorm 0 low high = (low + high) / 2 := by
  unfold cnorm
  ring

theorem consumeQuantity_zero (time_spent rate : ℚ) :
    consumeQuantity 0 time_spent rate = time_spent * rate := by
  unfold consumeQuantity
  rw [cnorm_zero]
  ring

/-- C2: a Program.run interrupted during its timed phase by a Cause with
force = false waits until start + duration (so the deterministic consumed
quantity per input is the full duration times the rate); with force = true or
a BaseIssue it stops at the interrupt time and consumes for
time_spent = t - start; in all these cases _consume_inputs runs, all container
locks are released and program_stopped is emitted. -/
theorem program_run_interrupt_semantics (start_time duration t : ℚ)
    (c : InterruptCause) (hdur : 0 ≤ duration) (h1 : start_time ≤ t)
    (h2 : t ≤ start_time + duration) (hc : c ≠ .otherCause) :
    ∃ r, Program.runTimedPhase start_time duration (some (t, c)) = .ok r ∧
      r.consume_ran = true ∧ r.containers_unlocked = true ∧
      r.program_stopped = true ∧
      (c = .baseCause false →
        r.end_time = start_time + duration ∧ r.time_spent = duration ∧
        ∀ rate, consumeQuantity 0 r.time_spent rate = duration * rate) ∧
      ((c = .baseCause true ∨ c = .baseIssue) →
        r.end_time = t ∧ r.time_spent = t - start_time) := by
  cases c with
  | baseCause force =>
    cases force with
    | false =>
      refine ⟨_, rfl, rfl, rfl, rfl, ?_, ?_⟩
      · intro _
        have hmax : max (start_time + duration - t) 0 = start_time + duration - t :=
          max_eq_left (by linarith)
        refine ⟨?_, ?_, ?_⟩
        · simp only [Program.runTimedPhase, hmax]
          ring
        · simp only [Program.runTimedPhase, hmax]
          ring
        · intro rate
          rw [consumeQuantity_zero]
          have : t + max (start_time + duration - t) 0 - start_time = duration := by
            rw [hmax]; ring
          simp only [Program.runTimedPhase]
          rw [this]
      · rintro (h | h) <;> exact absurd h (by simp)
    | true =>
      refine ⟨_, rfl, rfl, rfl, rfl, ?_, ?_⟩
      · intro h
        exact absurd h (by simp)
      · intro _
        exact ⟨rfl, rfl⟩
  | baseIssue =>
    refine ⟨_, rfl, rfl, rfl, rfl, ?_, ?_⟩
    · intro h
      exact absurd h (by simp)
    · intro _
      exact ⟨rfl, rfl⟩
  | otherCause => exact absurd rfl hc

/-- Witness for C2: a 900 s run started at time 0, gracefully interrupted at
t = 400 (force = false), and forcibly interrupted at t = 400. -/
theorem program_run_interrupt_semantics_witness :
    (∃ r, Program.runTimedPhase 0 900 (some (400, .baseCause false)) = .ok r ∧
      r.consume_ran = true ∧ r.containers_unlocked = true ∧
      r.program_stopped = true ∧
      (InterruptCause.baseCause false = .baseCause false →
        r.end_time = 0 + 900 ∧ r.time_spent = 900 ∧
        ∀ rate, consumeQuantity 0 r.time_spent rate = 900 * rate) ∧
      ((InterruptCause.baseCause false = .baseCause true ∨
        InterruptCause.baseCause false = .baseIssue) →
        r.end_time = 400 ∧ r.time_spent = 400 - 0)) ∧
    (∃ r, Program.runTimedPhase 0 900 (some (400, .baseCause true)) = .ok r ∧
      r.consume_ran = true ∧ r.containers_unlocked = true ∧
      r.program_stopped = true ∧
      (InterruptCause.baseCause true = .baseCause false →
        r.end_time = 0 + 900 ∧ r.time_spent = 900 ∧
        ∀ rate, consumeQuantity 0 r.time_spent rate = 900 * rate) ∧
      ((InterruptCause.baseCause true = .baseCause true ∨
        InterruptCause.baseCause true = .baseIssue) →
        r.end_time = 400 ∧ r.time_spent = 400 - 0)) := by
  constructor
  · have h := program_run_interrupt_semantics 0 900 400 (.baseCause false)
      (by norm_num) (by norm_num) (by norm_num) (by simp)
    simpa using h
  · have h := program_run_interrupt_semantics 0 900 400 (.baseCause true)
      (by norm_num) (by norm_num) (by norm_num) (by simp)
    simpa using h

/-- Machine state (machine.py line 84). -/
inductive MachState
| off
| on
| production
| error
deriving DecidableEq

/-- A machine transition operation together with the arguments that decide its
branch structure (machine.py): _switch_on, _switch_off(force,
require_executor), _switch_production(require_executor), _switch_program,
_switch_error, and clear_issue (which reboots through off back to on). -/
inductive MachOp
| switchOn
| switchOff (force require_executor : Bool)
| switchProduction (require_executor : Bool)
| switchProgram
| switchError
| clearIssue
deriving DecidableEq

/-- Effect of each transition routine on the machine state, translated from
the branch structure of machine.py.  `execFree` tells whether the executor
mutex request is granted within max_wait (during an error it is held at
priority -9999 by _switch_error until clearing_issue).  Details per routine:
_switch_on (lines 240-299) returns for state on, otherwise needs the executor
(its require_executor parameter is never consulted in the body) and moves
off/production to on, leaving error unchanged since neither branch matches;
_switch_off (lines 306-373) returns for state off, sets require_executor to
False when force is set, and then moves on, production and also error to off;
_switch_production (lines 382-416) requires state on; _switch_program (lines
418-463) never changes state; _switch_error (lines 652-701) moves on and
production to error; clear_issue (lines 719-729) acts only in error and
reboots off then on (the reboot acquires the executor released at
clearing_issue). -/
def Machine.applyOp (execFree : Bool) : MachOp → MachState → MachState
  | .switchOn, s =>
    if s = .on then .on
    else if execFree then
      (if s = .off then .on
       else if s = .production then .on
       else s)
    else s
  | .switchOff force require_executor, s =>
    if s = .off then .off
    else
      let require_executor2 := if force then false else require_executor
      if require_executor2 && !execFree then s
      else
        (if s = .on then .off
         else if s = .production then .off
         else if s = .error then .off
         else s)
  | .switchProduction require_executor, s =>
    if s ≠ .on then s
    else if require_executor && !execFree then s
    else .production
  | .switchProgram, s => s
  | .switchError, s =>
    if s = .on ∨ s = .production then .error else s
  | .clearIssue, s =>
    if s = .error then .on else s

/-- C3 counterexample: _switch_off with force = true is not the clear-issue
sequence, yet from state error it changes the state to off (machine.py lines
359-370; force skips the executor gate, lines 324-326). -/
theorem machine_error_escape_counterexample :
    MachOp.switchOff true true ≠ MachOp.clearIssue ∧
    Machine.applyOp false (.switchOff true true) .error = .off ∧
    MachState.off ≠ MachState.error := by
  refine ⟨by decide, ?_, by decide⟩
  rfl

/-- C3 (amended): while a machine is in state error, every transition routine
other than clear_issue and _switch_off leaves the state at error, and no
single transition routine moves error to production; _switch_off can take an
errored machine directly to off (its error branch), bypassing the clear-issue
sequence. -/
theorem machine_error_state_transitions (execFree : Bool) (op : MachOp) :
    Machine.applyOp execFree op .error ≠ .production ∧
    ((op ≠ .clearIssue ∧ ∀ f r, op ≠ .switchOff f r) →
      Machine.applyOp execFree op .error = .error) := by
  cases op with
  | switchOn =>
    constructor
    · cases execFree <;> simp [Machine.applyOp]
    · intro _
      cases execFree <;> simp [Machine.applyOp]
  | switchOff force require_executor =>
    constructor
    · cases force <;> cases require_executor <;> cases execFree <;>
        simp [Machine.applyOp]
    · rintro ⟨-, hoff⟩
      exact absurd rfl (hoff force require_executor)
  | switchProduction require_executor =>
    constructor
    · cases require_executor <;> cases execFree <;> simp [Machine.applyOp]
    · intro _
      cases require_executor <;> cases execFree <;> simp [Machine.applyOp]
  | switchProgram =>
    exact ⟨by simp [Machine.applyOp], fun _ => rfl⟩
  | switchError =>
    constructor
    · simp [Machine.applyOp]
    · intro _
      simp [Machine.applyOp]
  | clearIssue =>
    constructor
    · simp [Machine.applyOp]
    · rintro ⟨hclear, -⟩
      exact absurd rfl hclear

/-- Witness for C3 at concrete operations: _switch_production and
_switch_error leave an errored machine in error, and _switch_on does not reach
production from error. -/
theorem machine_error_state_transitions_witness :
    Machine.applyOp true (.switchProduction true) .error = .error ∧
    Machine.applyOp true .switchError .error = .error ∧
    Machine.applyOp true .switchOn .error ≠ .production :=
  ⟨(machine_error_state_transitions true (.switchProduction true)).2
      ⟨by decide, fun f r => by cases f <;> cases r <;> decide⟩,
   (machine_error_state_transitions true .switchError).2
      ⟨by decide, fun f r => by cases f <;> cases r <;> decide⟩,
   (machine_error_state_transitions true .switchOn).1⟩

/-- A schedule block as the handlers see it: its identity and static priority
(schedules.py lines 14-31); the mutable is_active flag lives in the schedule
state below, since stop() mutates the shared block object. -/
structure SchedBlock where
  id : ℕ
  priority : ℤ
deriving DecidableEq

/-- State of a Schedule (schedules.py lines 156-195) together with the
is_active flag of each block. -/
structure Schedule where
  isActive : ℕ → Bool
  active_blocks : List SchedBlock
  active_block : Option SchedBlock

/-- Result of processing one block_started event: the new schedule state,
the block on which a stop event was emitted by Block.stop (schedules.py lines
57-63: stop only emits and clears is_active when the block is active), the
block whose action was spawned, and whether the duplicate warning fired. -/
structure BlockStartResult where
  sched : Schedule
  stop_emitted : Option ℕ
  action_run : Option ℕ
  warned_duplicate : Bool

/-- Embedding of Schedule._on_block_start (schedules.py lines 197-232) for a
single received block: append to active_blocks unless already present; if
there is no active_block take over and run the action; else if the incoming
priority is ≤ the current priority, stop the current block (when it is
active), take over and run the action; otherwise only warn. -/
def Schedule.onBlockStart (s : Schedule) (b : SchedBlock) : BlockStartResult :=
  let blocks := if b ∈ s.active_blocks then s.active_blocks
                else s.active_blocks ++ [b]
  let warned := b ∈ s.active_blocks
  match s.active_block with
  | none =>
    ⟨{ s with active_blocks := blocks, active_block := some b },
     none, some b.id, warned⟩
  | some cur =>
    if b.priority ≤ cur.priority then
      if s.isActive cur.id then
        ⟨{ isActive := fun i => if i = cur.id then false else s.isActive i,
           active_blocks := blocks, active_block := some b },
         some cur.id, some b.id, warned⟩
      else
        ⟨{ s with active_blocks := blocks, active_block := some b },
         none, some b.id, warned⟩
    else
      ⟨{ s with active_blocks := blocks }, none, none, warned⟩

/-- Embedding of Schedule._on_block_finished (schedules.py lines 234-246) for
a single received block: remove it from active_blocks when present (warn
otherwise), and clear active_block exactly when active_blocks is empty
afterwards. -/
def Schedule.onBlockFinished (s : Schedule) (b : SchedBlock) : Schedule :=
  let blocks := if b ∈ s.active_blocks then s.active_blocks.erase b
                else s.active_blocks
  { s with active_blocks := blocks
           active_block := if blocks.length = 0 then none else s.active_block }

/-- C4: block_started appends the block to active_blocks (unless already
there); with no current active_block the incoming block becomes active and its
action runs; with a current block of priority ≥ the incoming one the current
block is stopped (its is_active flag is cleared, and a stop event is emitted
exactly when it was active), replaced, and the incoming action runs; with a
strictly higher-priority (numerically smaller) current block the incoming
block stays in active_blocks, does not become current and its action does not
run.  block_finished removes the block and clears active_block exactly when
active_blocks becomes empty. -/
theorem schedule_block_arbitration (s : Schedule) (b : SchedBlock) :
    (b ∈ (s.onBlockStart b).sched.active_blocks) ∧
    (s.active_block = none →
      (s.onBlockStart b).sched.active_block = some b ∧
      (s.onBlockStart b).action_run = some b.id) ∧
    (∀ cur, s.active_block = some cur → b.priority ≤ cur.priority →
      (s.onBlockStart b).sched.active_block = some b ∧
      (s.onBlockStart b).action_run = some b.id ∧
      (s.onBlockStart b).sched.isActive cur.id = false ∧
      ((s.onBlockStart b).stop_emitted = some cur.id ↔ s.isActive cur.id = true)) ∧
    (∀ cur, s.active_block = some cur → cur.priority < b.priority →
      b ∈ (s.onBlockStart b).sched.active_blocks ∧
      (s.onBlockStart b).sched.active_block = some cur ∧
      (s.onBlockStart b).action_run = none) ∧
    ((s.onBlockFinished b).active_blocks = s.active_blocks.erase b) ∧
    ((s.onBlockFinished b).active_block =
      if (s.onBlockFinished b).active_blocks = [] then none else s.active_block) := by
  have hmem : b ∈ (if b ∈ s.active_blocks then s.active_blocks
      else s.active_blocks ++ [b]) := by
    by_cases hb : b ∈ s.active_blocks
    · simpa [hb] using hb
    · simp [hb]
  have herase : (if b ∈ s.active_blocks then s.active_blocks.erase b
      else s.active_blocks) = s.active_blocks.erase b := by
    by_cases hb : b ∈ s.active_blocks
    · simp [hb]
    · simp [hb, List.erase_of_not_mem hb]
  refine ⟨?_, ?_, ?_, ?_, ?_, ?_⟩
  · cases hab : s.active_block with
    | none =>
      simp only [Schedule.onBlockStart, hab]
      exact hmem
    | some cur =>
      by_cases hp : b.priority ≤ cur.priority
      · by_cases ha : s.isActive cur.id <;>
          simp only [Schedule.onBlockStart, hab, hp, ha, if_true, if_false,
            Bool.false_eq_true, if_pos, if_neg] <;>
          exact hmem
      · simp only [Schedule.onBlockStart, hab]
        rw [if_neg hp]
        exact hmem
  · intro hab
    simp [Schedule.onBlockStart, hab]
  · intro cur hab hp
    simp only [Schedule.onBlockStart, hab]
    rw [if_pos hp]
    by_cases ha : s.isActive cur.id
    · rw [if_pos ha]
      refine ⟨rfl, rfl, by simp, by simp [ha]⟩
    · rw [if_neg ha]
      refine ⟨rfl, rfl, by simpa using ha, by simpa using ha⟩
  · intro cur hab hp
    have hp2 : ¬ b.priority ≤ cur.priority := not_le.mpr hp
    simp only [Schedule.onBlockStart, hab]
    rw [if_neg hp2]
    exact ⟨hmem, rfl, rfl⟩
  · simp only [Schedule.onBlockFinished]
    exact herase
  · simp only [Schedule.onBlockFinished, herase]
    by_cases he : s.active_blocks.erase b = []
    · simp [he]
    · simp [he, List.length_eq_zero]

/-- A concrete schedule for the C4 witness: current active block 1 with
priority 5 and is_active set, incoming block 2 with priority 1. -/
def sampleSchedule : Schedule :=
  ⟨fun i => i = 1, [⟨1, 5⟩], some ⟨1, 5⟩⟩

/-- Witness for C4: the higher-priority incoming block 2 preempts block 1
(stop emitted on 1, action of 2 runs), and finishing block 1 of a
single-element schedule clears active_block. -/
theorem schedule_block_arbitration_witness :
    ((sampleSchedule.onBlockStart ⟨2, 1⟩).sched.active_block = some ⟨2, 1⟩ ∧
      (sampleSchedule.onBlockStart ⟨2, 1⟩).action_run = some 2 ∧
      (sampleSchedule.onBlockStart ⟨2, 1⟩).sched.isActive 1 = false ∧
      ((sampleSchedule.onBlockStart ⟨2, 1⟩).stop_emitted = some 1 ↔
        sampleSchedule.isActive 1 = true)) ∧
    ((sampleSchedule.onBlockFinished ⟨1, 5⟩).active_blocks =
      sampleSchedule.active_blocks.erase ⟨1, 5⟩) :=
  ⟨(schedule_block_arbitration sampleSchedule ⟨2, 1⟩).2.2.1 ⟨1, 5⟩ rfl
      (by norm_num),
   (schedule_block_arbitration sampleSchedule ⟨1, 5⟩).2.2.2.2.1⟩

/-- A positional argument at the OverheatIssue call site (sensors.py line 94):
either the sensor object `self` or a number. -/
inductive PyArg
| sensorSelf
| num (q : ℚ)
deriving DecidableEq

/-- The fields OverheatIssue.__init__ would store on success (issues.py lines
44-48). -/
structure OverheatIssueData where
  realized : PyArg
  limit : PyArg
deriving DecidableEq

/-- Python call semantics of OverheatIssue(...) (issues.py lines 44-48):
`__init__(self, realized, limit, **kwargs)` accepts exactly two positional
arguments; any other number raises TypeError. -/
def OverheatIssue.construct : List PyArg → Except String OverheatIssueData
  | [r, l] => .ok ⟨r, l⟩
  | args =>
    .error ("TypeError: OverheatIssue positional arguments: expected 2, got "
      ++ toString args.length)

/-- Outcome of one temperature_changed event in the monitor process. -/
inductive MonitorOutcome
| raised (msg : String)
| switchErrorInvoked (issue : OverheatIssueData)
| warnedHigh
| noEffect
deriving DecidableEq

/-- Embedding of the body of MachineTemperatureSensor._temp_monitor_proc
(sensors.py lines 89-100) for one temperature_changed event: when value > 80
and the machine state is not error, the code evaluates
OverheatIssue(self, self.value, 80) - three positional arguments - and
would pass the result to machine._switch_error; when value > 70 and not yet
warned it logs a warning. -/
def tempMonitorStep (value : ℚ) (state : MachState) (warned_already : Bool) :
    MonitorOutcome :=
  if value > 80 ∧ state ≠ .error then
    match OverheatIssue.construct [PyArg.sensorSelf, PyArg.num value, PyArg.num 80] with
    | .ok issue => .switchErrorInvoked issue
    | .error msg => .raised msg
  else if value > 70 ∧ warned_already = false then .warnedHigh
  else .noEffect

/-- C5 (code bug): at temperature 81 with the machine in production, the
monitor body raises TypeError - OverheatIssue(self, self.value, 80) passes
three positional arguments to an __init__ accepting two - so no OverheatIssue
is constructed and _switch_error is never invoked. -/
theorem overheat_monitor_code_bug :
    (81 : ℚ) > 80 ∧ MachState.production ≠ .error ∧
    tempMonitorStep 81 .production false =
      .raised "TypeError: OverheatIssue positional arguments: expected 2, got 3" ∧
    ∀ issue, tempMonitorStep 81 .production false ≠ .switchErrorInvoked issue := by
  have hstep : tempMonitorStep 81 .production false =
      .raised "TypeError: OverheatIssue positional arguments: expected 2, got 3" := by
    show (if (81:ℚ) > 80 ∧ MachState.production ≠ .error then _ else _) = _
    rw [if_pos ⟨by norm_num, by decide⟩]
    rfl
  refine ⟨by norm_num, by decide, hstep, ?_⟩
  intro issue h
  rw [hstep] at h
  exact MonitorOutcome.noConfusion h

/-- Deterministic cnorm returns the midpoint of (low, high); in general the
result lies in the interval iff the standard normal draw lies in the 95% band
going into the pos-formula, since (low, high) are treated as the 5/95%
confidence bounds. -/
theorem cnorm_mem_iff (z low high : ℚ) (h : low < high) :
    (low ≤ cnorm z low high ∧ cnorm z low high ≤ high) ↔
      (-196 / 100 ≤ z ∧ z ≤ 196 / 100) := by
  have hd : 0 < high - low := sub_pos.mpr h
  have hkey : cnorm z low high =
      (z + 196 / 100) * (25 / 98) * (high - low) + low := by
    unfold cnorm
    ring
  rw [hkey]
  have h1 : low ≤ (z + 196 / 100) * (25 / 98) * (high - low) + low ↔
      -196 / 100 ≤ z := by
    rw [le_add_iff_nonneg_left, mul_nonneg_iff_of_pos_right hd]
    constructor
    · intro hh
      nlinarith
    · intro hh
      nlinarith
  have h2 : (z + 196 / 100) * (25 / 98) * (high - low) + low ≤ high ↔
      z ≤ 196 / 100 := by
    have hstep : (z + 196 / 100) * (25 / 98) * (high - low) + low ≤ high ↔
        (z + 196 / 100) * (25 / 98) * (high - low) ≤ high - low := by
      constructor
      · intro hh
        linarith
      · intro hh
        linarith
    rw [hstep, mul_le_iff_le_one_left hd]
    constructor
    · intro hh
      nlinarith
    · intro hh
      nlinarith
  rw [h1, h2]

/-- Consumed quantity of the single material in the empty-startup scenario
(program duration_minutes = 15, so minutes(15) = 900 s; consumption rate 1
unit/s), with the standard normal draws explicit: d0 for pnorm(minutes(0), 1)
added to the duration (program.py lines 225-227), w0 for the wnorm(duration)
wait (base.py lines 322-329: max(duration + 0.01 * w0, 0)), and z for the
cnorm of _consume_inputs. -/
def emptyStartupConsumed (d0 w0 z : ℚ) : ℚ :=
  let duration := 900 + |d0|
  let time_spent := max (duration + 1 / 100 * w0) 0
  consumeQuantity z time_spent 1

/-- The seeded container of the scenario: MaterialContainer(capacity=1000,
init=None) starts with one initial-material-batch of quantity 1000
(containers.py lines 152-157). -/
def seededContainer : MaterialContainer :=
  ⟨wood, 1000, [⟨wood, 1000, 1, 1, "initial-material-batch", 0, "material-batch"⟩]⟩

/-- C6 counterexample: an uninterrupted run in randomized mode whose cnorm
draw is z = -5.88 (duration and wait draws at their means) consumes 873
units, outside [891, 909]; cnorm treats the 1%-jitter bounds as a 95%
confidence interval, so draws beyond it escape the claimed range. -/
theorem empty_startup_consumed_counterexample :
    emptyStartupConsumed 0 0 (-147 / 25) = 873 ∧
    ¬ ((891 : ℚ) ≤ 873 ∧ (873 : ℚ) ≤ 909) := by
  constructor
  · unfold emptyStartupConsumed consumeQuantity cnorm
    norm_num
  · intro h
    exact absurd h.1 (by norm_num)

/-- C6 (amended): with the duration and wait draws at their means, the
consumed quantity is ((z + 1.96) / 3.92) * 18 + 891 for the cnorm draw z; it
lies in [891, 909] exactly when z lies in the 95% band [-1.96, 1.96]; in
deterministic mode (z = 0) it is exactly 900; and for any consumed quantity q
with 0 < q ≤ 1000 the seeded container is left at level 1000 - q. -/
theorem empty_startup_consumed_range (z : ℚ) :
    emptyStartupConsumed 0 0 z = (z - (-196 / 100)) / (196 / 100 * 2) * 18 + 891 ∧
    ((891 ≤ emptyStartupConsumed 0 0 z ∧ emptyStartupConsumed 0 0 z ≤ 909) ↔
      (-196 / 100 ≤ z ∧ z ≤ 196 / 100)) ∧
    emptyStartupConsumed 0 0 0 = 900 ∧
    (∀ q : ℚ, 0 < q → q ≤ 1000 →
      ∃ c2 fetched, seededContainer.get q = .ok (c2, fetched) ∧
        batchSum fetched = q ∧ c2.level = 1000 - q) := by
  have hval : emptyStartupConsumed 0 0 z =
      (z - (-196 / 100)) / (196 / 100 * 2) * 18 + 891 := by
    unfold emptyStartupConsumed consumeQuantity cnorm
    norm_num
  refine ⟨hval, ?_, ?_, ?_⟩
  · have hiff := cnorm_mem_iff z (99 / 100 * 900) (101 / 100 * 900) (by norm_num)
    have heq : emptyStartupConsumed 0 0 z = cnorm z (99 / 100 * 900) (101 / 100 * 900) := by
      rw [hval]
      unfold cnorm
      ring
    rw [heq]
    convert hiff using 3 <;> norm_num
  · unfold emptyStartupConsumed consumeQuantity
    rw [cnorm_zero]
    norm_num
  · intro q hq hq1000
    have hlev : seededContainer.level = 1000 := by
      norm_num [seededContainer, MaterialContainer.level, batchSum]
    obtain ⟨c2, fetched, hget, hsum, hcons, -⟩ :=
      MaterialContainer.get_spec seededContainer q hq (by rw [hlev]; exact hq1000)
    refine ⟨c2, fetched, hget, hsum, ?_⟩
    rw [hsum, hlev] at hcons
    linarith

/-- Witness for C6 at z = 0 and consumed quantity 900: consumed is 900, inside
[891, 909], and the container ends at level 100. -/
theorem empty_startup_consumed_range_witness :
    ((891 ≤ emptyStartupConsumed 0 0 0 ∧ emptyStartupConsumed 0 0 0 ≤ 909)) ∧
    (∃ c2 fetched, seededContainer.get 900 = .ok (c2, fetched) ∧
      batchSum fetched = 900 ∧ c2.level = 1000 - 900) :=
  ⟨((empty_startup_consumed_range 0).2.1).mpr (by norm_num),
   (empty_startup_consumed_range 0).2.2.2 900 (by norm_num) (by norm_num)⟩

/-- Batches created by the material branch of _action_procurement (actions.py
lines 87-99): n_batches = quantity // batch_size and the loop runs
range(n_batches + 1) times, each creating a batch of size batch_size (quality
and consumption_factor draws taken at their deterministic values here). -/
def procurementBatches (quantity batch_size : ℕ) (material : MatRef) :
    List MaterialBatch :=
  List.replicate (quantity / batch_size + 1)
    ⟨material, (batch_size : ℚ), 1, 1, "procured-batch", 0, "material-batch"⟩

/-- The batch count the spec claims.  Modelled from the spec: ceiling of
quantity / batch_size, for comparison with the count the code produces. -/
def specCeilBatchCount (quantity batch_size : ℕ) : ℕ :=
  (quantity + batch_size - 1) / batch_size

/-- C7 counterexample: for quantity 50 and batch_size 25 the code creates
50 // 25 + 1 = 3 batches, while ceil(50 / 25) = 2. -/
theorem procurement_batch_count_counterexample :
    (procurementBatches 50 25 (MatRef.mat "m")).length = 3 ∧
    specCeilBatchCount 50 25 = 2 ∧ (3 : ℕ) ≠ 2 := by
  refine ⟨?_, by decide, by decide⟩
  simp [procurementBatches]

/-- C7 (amended): the procurement action creates exactly
quantity / batch_size + 1 (floor division) batches of size batch_size; this
equals ceil(quantity / batch_size) exactly when batch_size does not divide
quantity, and is one more when it does. -/
theorem procurement_batch_count (quantity batch_size : ℕ) (m : MatRef)
    (hb : 0 < batch_size) :
    (procurementBatches quantity batch_size m).length = quantity / batch_size + 1 ∧
    (¬ batch_size ∣ quantity →
      (procurementBatches quantity batch_size m).length =
        specCeilBatchCount quantity batch_size) ∧
    (batch_size ∣ quantity →
      (procurementBatches quantity batch_size m).length =
        specCeilBatchCount quantity batch_size + 1) := by
  have hlen : (procurementBatches quantity batch_size m).length =
      quantity / batch_size + 1 := by
    simp [procurementBatches]
  refine ⟨hlen, ?_, ?_⟩
  · intro hnd
    rw [hlen]
    set k := quantity / batch_size with hk
    set r := quantity % batch_size with hr
    have hqr : batch_size * k + r = quantity := Nat.div_add_mod quantity batch_size
    have hrlt : r < batch_size := Nat.mod_lt _ hb
    have hrpos : 0 < r := by
      rcases Nat.eq_zero_or_pos r with h0 | h0
      · exact absurd ⟨k, by omega⟩ hnd
      · exact h0
    have hkey : quantity + batch_size - 1 = (r - 1) + batch_size * (k + 1) := by
      have hbk : batch_size * (k + 1) = batch_size * k + batch_size := by ring
      omega
    unfold specCeilBatchCount
    rw [hkey, Nat.add_mul_div_left _ _ hb,
      Nat.div_eq_of_lt (show r - 1 < batch_size by omega)]
    omega
  · rintro ⟨k, hk⟩
    rw [hlen]
    have hdiv : quantity / batch_size = k := by
      rw [hk, Nat.mul_div_cancel_left _ hb]
    have hkey : quantity + batch_size - 1 = (batch_size - 1) + batch_size * k := by
      omega
    unfold specCeilBatchCount
    rw [hdiv, hkey, Nat.add_mul_div_left _ _ hb,
      Nat.div_eq_of_lt (show batch_size - 1 < batch_size by omega)]
    omega

/-- Witness for C7 with quantity 60 and batch_size 25: three batches are
created, and since 25 does not divide 60 this equals ceil(60 / 25) = 3. -/
theorem procurement_batch_count_witness :
    (0 : ℕ) < 25 ∧
    (procurementBatches 60 25 (MatRef.mat "m")).length = 60 / 25 + 1 ∧
    (procurementBatches 60 25 (MatRef.mat "m")).length = specCeilBatchCount 60 25 :=
  ⟨by decide,
   (procurement_batch_count 60 25 (MatRef.mat "m") (by decide)).1,
   (procurement_batch_count 60 25 (MatRef.mat "m") (by decide)).2.1 (by decide)⟩

/-- An issue as stored in the maintenance backlog: its kind and the priority
attribute on the class (issues.py). -/
structure MaintIssue where
  kind : String
  class_priority : ℤ
deriving DecidableEq

/-- Priority under which Maintenance.add_issue stores an issue (maintenance.py
lines 49-54): only when no explicit priority is given and the issue has a
priority attribute is that attribute used; in every other case - including an
explicitly passed priority - the else branch assigns 5. -/
def addIssuePriority (explicit : Option ℤ) (issue_priority : Option ℤ) : ℤ :=
  match explicit, issue_priority with
  | none, some p => p
  | none, none => 5
  | some _, _ => 5

/-- Effect of one iteration of Maintenance.issue_producer on the issues store
(maintenance.py lines 114-120): the line
`self.add_issue(OtherCustomerIssue(), priority=priority)` calls a generator
function without iterating it or wrapping it in env.process, so the generator
body never runs and the store is unchanged. -/
def issueProducerStep (priority : ℤ) (issues : List (ℤ × MaintIssue)) :
    List (ℤ × MaintIssue) :=
  issues

/-- Modelled from the spec: simpy.PriorityStore is an external dependency (not
part of this repository); the spec gives its contract as "get returns the item
with the lowest priority, FIFO within equal priorities".  This returns the
first item whose priority is minimal; Maintenance.repair (maintenance.py lines
103-112) dequeues through it. -/
def priorityStoreGet (items : List (ℤ × MaintIssue)) : Option (ℤ × MaintIssue) :=
  items.foldl
    (fun acc x =>
      match acc with
      | none => some x
      | some y => if x.1 < y.1 then some x else some y)
    none

/-- C8 (code bug): the background issue producer does not enqueue anything -
its add_issue call creates an undriven generator - and even when add_issue is
driven with an explicit priority (the producer passes 3-5), the else branch
discards it and stores the issue at priority 5.  The dequeue side (per the
spec-modelled PriorityStore contract) does serve the lowest priority first:
a scheduled-maintenance issue at priority 1 is picked before an
other-customer issue at priority 5. -/
theorem maintenance_producer_code_bug :
    (∀ (p : ℤ) (store : List (ℤ × MaintIssue)), issueProducerStep p store = store) ∧
    issueProducerStep 3 [] = [] ∧
    addIssuePriority (some 3) (some 5) = 5 ∧
    addIssuePriority (some 4) (some 5) = 5 ∧
    (∀ p : ℤ, addIssuePriority (some p) (some 5) = 5) ∧
    (3 : ℤ) ≠ 5 ∧
    priorityStoreGet
      [(5, ⟨"OtherCustomerIssue", 5⟩), (1, ⟨"ScheduledMaintenanceIssue", 1⟩)] =
      some (1, ⟨"ScheduledMaintenanceIssue", 1⟩) :=
  ⟨fun _ _ => rfl, rfl, rfl, rfl, fun _ => rfl, by decide, by decide⟩

/-- A Python value as stored in the state snapshot (factory.py). -/
inductive PyVal
| pynone
| int (n : ℤ)
| str (s : String)
| boolean (b : Bool)
deriving DecidableEq

/-- Python truthiness of a value. -/
def PyVal.truthy : PyVal → Bool
  | .pynone => false
  | .int n => n ≠ 0
  | .str s => s ≠ ""
  | .boolean b => b

/-- Python `a or b`. -/
def pyOr (a b : PyVal) : PyVal :=
  if a.truthy then a else b

/-- Python dict.get with default None. -/
def stateGet (state : List (String × PyVal)) (k : String) : PyVal :=
  match state.lookup k with
  | some v => v
  | none => PyVal.pynone

/-- One collector variable (factory.py lines 244-251): its state-snapshot key
(the dict key of collector["variables"]), its display name, its value_map, and
its default. -/
structure CollectorVar where
  field : String
  name : String
  value_map : PyVal → PyVal
  default : PyVal

/-- Embedding of Factory.get_state with a collector (factory.py lines
238-255): for each variable, statedict[name] =
value_map(state.get(field)) or default. -/
def Factory.get_state (state : List (String × PyVal))
    (vars : List CollectorVar) : List (String × PyVal) :=
  vars.map fun v => (v.name, pyOr (v.value_map (stateGet state v.field)) v.default)

/-- A concrete state snapshot and collector variable for the C9
counterexample: the id is present with value 0 and the value_map is the
identity. -/
def cexState : List (String × PyVal) := [("machine1.state", PyVal.int 0)]

/-- Collector variable whose value_map is the identity and whose default is
the string "null". -/
def cexVar : CollectorVar :=
  ⟨"machine1.state", "Machine state", fun v => v, PyVal.str "null"⟩

/-- C9 counterexample: the id "machine1.state" is present in the snapshot with
value 0, so per the claim the default must not be used; yet get_state returns
the default "null" because `value_map(...) or default` replaces every falsy
mapped value (0, empty string, False, None) with the default. -/
theorem get_state_default_counterexample :
    stateGet cexState "machine1.state" = PyVal.int 0 ∧
    cexVar.value_map (PyVal.int 0) = PyVal.int 0 ∧
    Factory.get_state cexState [cexVar] = [("Machine state", PyVal.str "null")] ∧
    PyVal.str "null" ≠ PyVal.int 0 := by
  refine ⟨rfl, rfl, ?_, by decide⟩
  rfl

/-- C9 (amended): get_state returns under the display name
value_map(state.get(id)) whenever that result is truthy, and the default
otherwise; a missing id is handled by applying value_map to None (so the
default is used on a missing id only when value_map(None) is falsy, and is
also used on present ids whose mapped value is falsy). -/
theorem get_state_value_or_default (state : List (String × PyVal))
    (vars : List CollectorVar) (v : CollectorVar) (hv : v ∈ vars) :
    ((v.value_map (stateGet state v.field)).truthy = true →
      (v.name, v.value_map (stateGet state v.field)) ∈
        Factory.get_state state vars) ∧
    ((v.value_map (stateGet state v.field)).truthy = false →
      (v.name, v.default) ∈ Factory.get_state state vars) ∧
    (state.lookup v.field = none →
      (v.name, pyOr (v.value_map PyVal.pynone) v.default) ∈
        Factory.get_state state vars) := by
  refine ⟨?_, ?_, ?_⟩
  · intro ht
    have : pyOr (v.value_map (stateGet state v.field)) v.default =
        v.value_map (stateGet state v.field) := by
      unfold pyOr
      rw [ht]
      rfl
    exact List.mem_map.mpr ⟨v, hv, by rw [this]⟩
  · intro hf
    have : pyOr (v.value_map (stateGet state v.field)) v.default = v.default := by
      unfold pyOr
      rw [hf]
      rfl
    exact List.mem_map.mpr ⟨v, hv, by rw [this]⟩
  · intro hmiss
    have : stateGet state v.field = PyVal.pynone := by
      unfold stateGet
      rw [hmiss]
    exact List.mem_map.mpr ⟨v, hv, by rw [this]⟩

/-- A second collector variable, mapping the machine state string to itself
with default 0. -/
def presentVar : CollectorVar :=
  ⟨"machine1.state", "Machine state", fun v => v, PyVal.int 0⟩

/-- Witness for C9: with snapshot value "on" (truthy) the mapped value is
returned; with a missing id the value_map is applied to None. -/
theorem get_state_value_or_default_witness :
    (("Machine state" : String), PyVal.str "on") ∈
      Factory.get_state [("machine1.state", PyVal.str "on")] [presentVar] ∧
    (("Machine state" : String),
      pyOr (presentVar.value_map PyVal.pynone) presentVar.default) ∈
      Factory.get_state [] [presentVar] :=
  ⟨(get_state_value_or_default [("machine1.state", PyVal.str "on")] [presentVar]
      presentVar (List.mem_singleton.mpr rfl)).1 (by decide),
   (get_state_value_or_default [] [presentVar] presentVar
      (List.mem_singleton.mpr rfl)).2.2 rfl⟩

end FactorySim
